import Mathlib

/-!
Shallow embedding of the `donate` contract (`src/donate/assembly/index.ts`,
a NEAR AssemblyScript contract) and proofs of its specified properties.

Modelling conventions:
* Persistent storage (keys "o" for the owner, "b" for the balance, prefix "d"
  for the donation set) is an explicit `Storage` record.
* Each entry operation is a function from an invocation `Context` and the
  current `Storage` to `Except String Storage`: an `assert` failure in the
  contract aborts the whole invocation and reverts every change, which the
  embedding renders as `.error msg` with the untouched input state.
* The spec treats the numeric type (`u128`) as an arbitrary-precision
  non-negative integer; the stored balance is embedded as `Int` so that the
  non-negativity invariant is a real statement, and amounts handed to the
  operations as `Nat`.
* Scheduled cross-contract calls (the fee forward and the withdrawal
  transfer) do not touch this contract's storage; `send_donation` returns the
  description of the promise it schedules next to the (unchanged) storage.
* Logging is not modelled.
-/

namespace Donate

/-- NEAR account identifiers, as in the contract (`AccountId = string`). -/
abbrev AccountId := String

/-- Modelled from the spec: the `Donation` record type lives in
`src/donate/assembly/models.ts`, which is not part of the sources; the spec
gives it as `{donor: AccountId, amount: Amount, timestamp: u64}`. -/
structure Donation where
  donor : AccountId
  amount : Nat
  timestamp : Nat
deriving DecidableEq, Repr

/-- The contract's persistent storage: the `"o"` slot, the `"b"` slot and the
`PersistentSet` of donations. `none` models an absent key. -/
structure Storage where
  owner : Option AccountId
  balance : Option Int
  donations : List Donation
deriving DecidableEq, Repr

/-- The host-provided invocation context (`context.*` in near-sdk-as). -/
structure Context where
  predecessor : AccountId
  attachedDeposit : Nat
  blockTimestamp : Nat
  contractName : AccountId
deriving DecidableEq, Repr

/-- Modelled from the spec: the numeric constants and the account validator
come from `src/utils.ts` and `near-sdk-as`, which are not part of the
sources. The spec fixes the minimum account balance at 3 NEAR and the
minimum donation and withdrawal at 1 NEAR but leaves the fee divisor and the
exact account-name syntax abstract, so the development is parameterised over
all of them. -/
structure Config where
  MIN_ACCOUNT_BALANCE : Nat
  MIN_DONATION_AMOUNT : Nat
  MIN_WITHDRAWAL_AMOUNT : Nat
  PLATFORM_FEE_DIVISOR : Nat
  isValidAccountId : AccountId → Bool

/-- `assert(cond, msg)`: continue when `cond` holds, abort otherwise. -/
def assertE (p : Prop) [Decidable p] (msg : String) : Except String Unit :=
  if p then .ok () else .error msg

/-- `storage.getSome`: aborts when the key is absent. -/
def storageGetSome {α : Type} (o : Option α) : Except String α :=
  match o with
  | some v => .ok v
  | none => .error "Storage key not found"

/-- `is_initialized`: both the owner key and the balance key are present. -/
def is_initialized (s : Storage) : Bool :=
  s.owner.isSome && s.balance.isSome

/-- `is_owner`: the predecessor equals the stored owner (`storage.getString`
yields `null` on an absent key, and a string never equals `null`). -/
def is_owner (ctx : Context) (s : Storage) : Bool :=
  match s.owner with
  | some o => ctx.predecessor == o
  | none => false

/-- `get_factory`: the parent account, obtained by dropping the first
segment of the contract's own account name. -/
def get_factory (ctx : Context) : AccountId :=
  String.intercalate "." ((ctx.contractName.splitOn ".").drop 1)

/-- `PersistentSet.add`: storage-backed set keyed by full value equality, so
adding an already-present element changes nothing. -/
def setAdd (l : List Donation) (d : Donation) : List Donation :=
  if d ∈ l then l else l ++ [d]

/-- `get_balance()`: requires initialization, then reads the `"b"` slot. -/
def get_balance (s : Storage) : Except String Int := do
  let _ ← assertE (is_initialized s = true) "Contract must be initialized first."
  storageGetSome s.balance

/-- `get_owner()`: requires initialization, then reads the `"o"` slot. -/
def get_owner (s : Storage) : Except String AccountId := do
  let _ ← assertE (is_initialized s = true) "Contract must be initialized first."
  storageGetSome s.owner

/-- `get_donations()`: requires initialization, then lists the set. -/
def get_donations (s : Storage) : Except String (List Donation) := do
  let _ ← assertE (is_initialized s = true) "Contract must be initialized first."
  .ok s.donations

/-- `init(owner)`: one-time setup storing the owner and a zero balance. -/
def init (cfg : Config) (ctx : Context) (owner : AccountId) (s : Storage) :
    Except String Storage := do
  let _ ← assertE (¬ is_initialized s = true) "Contract is already initialized."
  let _ ← assertE (cfg.MIN_ACCOUNT_BALANCE ≤ ctx.attachedDeposit)
    "Minimum account balance must be attached to initialize this contract (3 NEAR)"
  let _ ← assertE (cfg.isValidAccountId owner = true)
    "Owner account must have valid NEAR account name"
  .ok { s with owner := some owner, balance := some 0 }

/-- The promise batch scheduled by `send_donation`: a `deposit_fees` call on
the factory carrying the fee, chained into an `on_donation_sent` callback on
this contract carrying the net amount as argument. -/
structure DonationPromise where
  factory : AccountId
  feeAmount : Nat
  callbackTarget : AccountId
  callbackAmount : Nat
deriving DecidableEq, Repr

/-- `send_donation()`: splits the attached deposit into fee and net and
schedules the fee forward plus its confirmation callback; the storage is not
touched in this phase. -/
def send_donation (cfg : Config) (ctx : Context) (s : Storage) :
    Except String (Storage × DonationPromise) := do
  let _ ← assertE (is_initialized s = true) "Contract must be initialized first."
  let _ ← assertE (cfg.MIN_DONATION_AMOUNT ≤ ctx.attachedDeposit)
    "Minimum donation must be attached (1 NEAR)"
  let feeAmount := ctx.attachedDeposit / cfg.PLATFORM_FEE_DIVISOR
  let donationAmount := ctx.attachedDeposit - feeAmount
  .ok (s, { factory := get_factory ctx, feeAmount := feeAmount,
            callbackTarget := ctx.contractName, callbackAmount := donationAmount })

/-- `on_donation_sent(amount)`: switch on the fee-forward promise status
(0 pending, 1 success, 2 failure, anything else unexpected). Only status 1
mutates: it credits the balance and adds a donation record built from the
callback invocation's own `context.predecessor` and `context.blockTimestamp`. -/
def on_donation_sent (ctx : Context) (status : Nat) (amount : Nat)
    (s : Storage) : Except String Storage :=
  match status with
  | 0 => .ok s
  | 1 => do
    let bal ← get_balance s
    let s1 := { s with balance := some (bal + (amount : Int)) }
    .ok { s1 with
          donations := setAdd s1.donations
            ⟨ctx.predecessor, amount, ctx.blockTimestamp⟩ }
  | 2 => .ok s
  | _ => .ok s

/-- `withdraw_donations(amount)`: owner-gated optimistic debit followed by a
scheduled transfer and its confirmation callback (the promise is not part of
the stored state and is omitted here). -/
def withdraw_donations (cfg : Config) (ctx : Context) (amount : Nat)
    (s : Storage) : Except String Storage := do
  let _ ← assertE (is_initialized s = true) "Contract must be initialized first."
  let _ ← assertE (is_owner ctx s = true)
    "Must be called by owner. e.g. myorg.near if your donation account is myorg.donate.near"
  let _ ← assertE (cfg.MIN_WITHDRAWAL_AMOUNT ≤ amount)
    "Attempting to withdraw less than minimum amount (1 NEAR)"
  let balance ← storageGetSome s.balance
  let _ ← assertE ((amount : Int) ≤ balance)
    "Attempting to withdraw more than donation balance."
  .ok { s with balance := some (balance - (amount : Int)) }

/-- `on_donations_withdrawn(amount)`: switch on the transfer promise status.
Only status 2 (failure) mutates: it restores the optimistic debit. -/
def on_donations_withdrawn (ctx : Context) (status : Nat) (amount : Nat)
    (s : Storage) : Except String Storage :=
  match status with
  | 0 => .ok s
  | 1 => .ok s
  | 2 => do
    let bal ← get_balance s
    .ok { s with balance := some (bal + (amount : Int)) }
  | _ => .ok s

/-- Modelled from the spec: the call scheduler executing the chained
continuation. The contract calls back into itself (`promise.then
(context.contractName)` with zero attached value), so the callback receipt's
predecessor is the contract's own account, and its block timestamp is that
of the later block in which the callback runs. -/
def callback_context (ctx : Context) (t : Nat) : Context :=
  { predecessor := ctx.contractName, attachedDeposit := 0,
    blockTimestamp := t, contractName := ctx.contractName }

/-- A whole donation flow: `send_donation` in one receipt, then the
`on_donation_sent` callback in a later receipt at block time `t` with the
fee-forward status, carrying the net amount computed in phase 1. -/
def donation_flow (cfg : Config) (ctx : Context) (t : Nat) (status : Nat)
    (s : Storage) : Except String Storage := do
  let (s1, p) ← send_donation cfg ctx s
  on_donation_sent (callback_context ctx t) status p.callbackAmount s1

/-- The balance slot, when present, holds a non-negative value. -/
def balance_nonneg (s : Storage) : Prop :=
  ∀ b : Int, s.balance = some b → 0 ≤ b

/-- A concrete configuration used for witness evaluations. -/
def cfgW : Config :=
  { MIN_ACCOUNT_BALANCE := 3, MIN_DONATION_AMOUNT := 1,
    MIN_WITHDRAWAL_AMOUNT := 1, PLATFORM_FEE_DIVISOR := 10,
    isValidAccountId := fun o => decide (2 ≤ o.length) }

/-- A concrete initialized storage used for witness evaluations. -/
def sW : Storage := ⟨some "owner.near", some 50, []⟩

/-- A concrete owner invocation used for witness evaluations. -/
def ctxOwnerW : Context := ⟨"owner.near", 0, 7, "donate.donate-as.near"⟩

/-- A concrete donor invocation used for witness evaluations. -/
def ctxDonorW : Context := ⟨"alice.near", 100, 5, "donate.donate-as.near"⟩

end Donate

namespace Donate

/-! ### Helper lemmas about the embedding's plumbing -/

theorem assertE_bind {α : Type} (p : Prop) [Decidable p] (msg : String)
    (k : Unit → Except String α) :
    (assertE p msg >>= k) = if p then k () else .error msg := by
  unfold assertE
  split <;> rfl

theorem storageGetSome_some_bind {α β : Type} (v : α)
    (k : α → Except String β) :
    (storageGetSome (some v) >>= k) = k v := rfl

theorem storageGetSome_none_bind {α β : Type} (k : α → Except String β) :
    (storageGetSome (none : Option α) >>= k) = .error "Storage key not found" := rfl

theorem except_ok_bind {α β : Type} (v : α) (k : α → Except String β) :
    ((Except.ok v : Except String α) >>= k) = k v := rfl

theorem except_error_bind {α β : Type} (e : String) (k : α → Except String β) :
    ((Except.error e : Except String α) >>= k) = .error e := rfl

theorem get_balance_eq {s : Storage} {b : Int} (ho : s.owner.isSome = true)
    (hb : s.balance = some b) : get_balance s = .ok b := by
  simp [get_balance, assertE_bind, is_initialized, ho, hb, storageGetSome]

theorem setAdd_of_mem {l : List Donation} {d : Donation} (h : d ∈ l) :
    setAdd l d = l := by
  simp [setAdd, h]

theorem setAdd_of_not_mem {l : List Donation} {d : Donation} (h : d ∉ l) :
    setAdd l d = l ++ [d] := by
  simp [setAdd, h]

theorem mem_setAdd_self (l : List Donation) (d : Donation) : d ∈ setAdd l d := by
  unfold setAdd
  split
  · assumption
  · simp

theorem on_donation_sent_frame (ctx : Context) {status : Nat} (h : status ≠ 1)
    (amount : Nat) (s : Storage) :
    on_donation_sent ctx status amount s = .ok s := by
  match status with
  | 0 => rfl
  | 1 => exact absurd rfl h
  | 2 => rfl
  | n + 3 => rfl

theorem on_donations_withdrawn_frame (ctx : Context) {status : Nat}
    (h : status ≠ 2) (amount : Nat) (s : Storage) :
    on_donations_withdrawn ctx status amount s = .ok s := by
  match status with
  | 0 => rfl
  | 1 => rfl
  | 2 => exact absurd rfl h
  | n + 3 => rfl

/-! ### Claim theorems -/

/-- C3: for every state and every callback status other than the mutating tag
of that callback (1 = Success for `on_donation_sent`, 2 = Failure for
`on_donations_withdrawn`) — pending (0), the non-mutating terminal tag, and
any unexpected code — the callback returns the storage unchanged, so the
balance and the donation collection are untouched; in particular a failed
fee-forward credits nothing and appends no record. -/
theorem callback_nonmutating_frame (ctx : Context) (status : Nat)
    (amount : Nat) (s : Storage) :
    (status ≠ 1 → on_donation_sent ctx status amount s = .ok s) ∧
    (status ≠ 2 → on_donations_withdrawn ctx status amount s = .ok s) :=
  ⟨fun h => on_donation_sent_frame ctx h amount s,
   fun h => on_donations_withdrawn_frame ctx h amount s⟩

/-- C6: `send_donation` (phase 1) never mutates the ledger state: whenever it
succeeds, the storage it returns is exactly the input storage — the balance
is not credited and no donation record is added — and within the composed
donation flow every status other than Success (1) also leaves the state
unchanged, so the Success branch of `on_donation_sent` is the only point of
the flow that adds funds to the balance. -/
theorem send_donation_no_state_change (cfg : Config) (ctx : Context) (t : Nat)
    (s s' : Storage) (p : DonationPromise)
    (h : send_donation cfg ctx s = .ok (s', p)) :
    s' = s ∧
    ∀ status, status ≠ 1 → donation_flow cfg ctx t status s = .ok s := by
  simp only [send_donation, assertE_bind] at h
  split_ifs at h with h1 h2
  · simp only [Except.ok.injEq, Prod.mk.injEq] at h
    obtain ⟨hs, -⟩ := h
    subst hs
    refine ⟨rfl, fun status hst => ?_⟩
    simp only [donation_flow, send_donation, assertE_bind, if_pos h1, if_pos h2]
    exact on_donation_sent_frame _ hst _ _

/-- C4: for every initialized state and attached deposit at least the minimum
donation, `send_donation` computes `fee = floor(deposit / FEE_DIVISOR)` by
truncating division and `net = deposit - fee`, so `fee + net = deposit` and
the fee never exceeds `deposit / FEE_DIVISOR`. -/
theorem send_donation_fee_split (cfg : Config) (ctx : Context) (s : Storage)
    (hinit : is_initialized s = true)
    (hdep : cfg.MIN_DONATION_AMOUNT ≤ ctx.attachedDeposit) :
    ∃ p, send_donation cfg ctx s = .ok (s, p) ∧
      p.feeAmount = ctx.attachedDeposit / cfg.PLATFORM_FEE_DIVISOR ∧
      p.callbackAmount = ctx.attachedDeposit - p.feeAmount ∧
      p.feeAmount + p.callbackAmount = ctx.attachedDeposit ∧
      p.feeAmount ≤ ctx.attachedDeposit / cfg.PLATFORM_FEE_DIVISOR := by
  refine ⟨⟨get_factory ctx, ctx.attachedDeposit / cfg.PLATFORM_FEE_DIVISOR,
          ctx.contractName,
          ctx.attachedDeposit - ctx.attachedDeposit / cfg.PLATFORM_FEE_DIVISOR⟩,
        ?_, rfl, rfl, ?_, le_refl _⟩
  · simp [send_donation, assertE_bind, hinit, hdep]
  · show ctx.attachedDeposit / cfg.PLATFORM_FEE_DIVISOR +
        (ctx.attachedDeposit - ctx.attachedDeposit / cfg.PLATFORM_FEE_DIVISOR) =
        ctx.attachedDeposit
    have := Nat.div_le_self ctx.attachedDeposit cfg.PLATFORM_FEE_DIVISOR
    omega

/-- C1: concrete run of the full donation flow. `alice.near` donates 100 at
block time 5 on contract `donate.donate-as.near` (fee divisor 10); the fee
forward resolves Success and the callback executes at block time 9. The
balance is credited with exactly the net 90 — but the appended record's donor
is `donate.donate-as.near`, the callback receipt's predecessor (the contract
account itself, since the callback is self-scheduled), not the original
caller `alice.near`, and its timestamp is the callback block's time 9, not
the original call's block time 5. -/
theorem donation_flow_records_callback_context :
    donation_flow
        { MIN_ACCOUNT_BALANCE := 3, MIN_DONATION_AMOUNT := 1,
          MIN_WITHDRAWAL_AMOUNT := 1, PLATFORM_FEE_DIVISOR := 10,
          isValidAccountId := fun o => decide (2 ≤ o.length) }
        ⟨"alice.near", 100, 5, "donate.donate-as.near"⟩ 9 1
        ⟨some "owner.near", some 0, []⟩
      = .ok ⟨some "owner.near", some 90, [⟨"donate.donate-as.near", 90, 9⟩]⟩ ∧
    "donate.donate-as.near" ≠ "alice.near" ∧ (9 : Nat) ≠ 5 :=
  ⟨rfl, by decide, by decide⟩

end Donate

namespace Donate

/-- C2: whenever `withdraw_donations(amount)` succeeds on a state whose
balance slot holds `b`, the balance is immediately debited to `b - amount`
(before any transfer outcome is known); a subsequent `on_donations_withdrawn`
callback with status Failure (2) restores the storage to its pre-withdrawal
balance `b` exactly, and one with status Success (1) returns the post-debit
storage unchanged. -/
theorem withdraw_then_callback_balance (cfg : Config) (ctx ctx2 : Context)
    (amount : Nat) (s s1 : Storage) (b : Int)
    (hb : s.balance = some b)
    (h : withdraw_donations cfg ctx amount s = .ok s1) :
    s1 = { s with balance := some (b - (amount : Int)) } ∧
    on_donations_withdrawn ctx2 2 amount s1 = .ok { s with balance := some b } ∧
    on_donations_withdrawn ctx2 1 amount s1 = .ok s1 := by
  simp only [withdraw_donations, assertE_bind, hb, storageGetSome_some_bind] at h
  split_ifs at h with h1 h2 h3 h4
  simp only [Except.ok.injEq] at h
  subst h
  have ho : s.owner.isSome = true := by
    simp only [is_initialized, Bool.and_eq_true] at h1
    exact h1.1
  refine ⟨rfl, ?_, rfl⟩
  have hgb : get_balance { s with balance := some (b - (amount : Int)) }
      = .ok (b - (amount : Int)) := get_balance_eq (by simpa using ho) rfl
  have hunfold : on_donations_withdrawn ctx2 2 amount
        { s with balance := some (b - (amount : Int)) }
      = (get_balance { s with balance := some (b - (amount : Int)) } >>= fun bal =>
          .ok { s with balance := some (bal + (amount : Int)) }) := rfl
  simp only [hunfold, hgb, except_ok_bind]
  rw [Int.sub_add_cancel]

/-- C5: the balance never goes negative: under the embedding of the stored
`u128` balance as an integer, every operation maps a state whose balance is
non-negative to a state whose balance is non-negative, and the only
balance-decreasing operation, `withdraw_donations`, succeeds only after
checking that the debited amount does not exceed the current balance. -/
theorem balance_nonneg_preserved (cfg : Config) (ctx : Context)
    (owner : AccountId) (status : Nat) (amount : Nat) (s s' : Storage)
    (p : DonationPromise) (h0 : balance_nonneg s) :
    (init cfg ctx owner s = .ok s' → balance_nonneg s') ∧
    (send_donation cfg ctx s = .ok (s', p) → balance_nonneg s') ∧
    (on_donation_sent ctx status amount s = .ok s' → balance_nonneg s') ∧
    (withdraw_donations cfg ctx amount s = .ok s' →
      balance_nonneg s' ∧ ∃ b : Int, s.balance = some b ∧ (amount : Int) ≤ b) ∧
    (on_donations_withdrawn ctx status amount s = .ok s' → balance_nonneg s') := by
  have hadd : ∀ b : Int, s.balance = some b →
      balance_nonneg { s with balance := some (b + (amount : Int)) } := by
    intro b hb b' hb'
    simp only [Option.some.injEq] at hb'
    have := h0 b hb
    have : (0 : Int) ≤ (amount : Int) := Int.natCast_nonneg amount
    omega
  refine ⟨?_, ?_, ?_, ?_, ?_⟩
  · intro h
    simp only [init, assertE_bind] at h
    split_ifs at h with h1 h2 h3
    simp only [Except.ok.injEq] at h
    subst h
    intro b' hb'
    simp only [Option.some.injEq] at hb'
    omega
  · intro h
    simp only [send_donation, assertE_bind] at h
    split_ifs at h with h1 h2
    simp only [Except.ok.injEq, Prod.mk.injEq] at h
    obtain ⟨hs, -⟩ := h
    subst hs
    exact h0
  · intro h
    match status with
    | 0 => exact (Except.ok.injEq _ _ ▸ h) ▸ h0
    | 2 => exact (Except.ok.injEq _ _ ▸ h) ▸ h0
    | n + 3 => exact (Except.ok.injEq _ _ ▸ h) ▸ h0
    | 1 =>
      simp only [on_donation_sent, get_balance, assertE_bind] at h
      by_cases h1 : is_initialized s = true
      · rw [if_pos h1] at h
        cases hsb : s.balance with
        | none => rw [hsb, storageGetSome_none_bind] at h; exact Except.noConfusion h
        | some b =>
          rw [hsb, storageGetSome_some_bind] at h
          simp only [Except.ok.injEq] at h
          subst h
          intro b' hb'
          simp only [Option.some.injEq] at hb'
          have hbb := h0 b hsb
          have hcast : (0 : Int) ≤ (amount : Int) := Int.natCast_nonneg amount
          omega
      · rw [if_neg h1, except_error_bind] at h
        exact Except.noConfusion h
  · intro h
    simp only [withdraw_donations, assertE_bind] at h
    cases hsb : s.balance with
    | none => rw [hsb] at h; split_ifs at h with h1 h2 h3; rw [storageGetSome_none_bind] at h
              exact Except.noConfusion h
    | some b =>
      rw [hsb, storageGetSome_some_bind] at h
      split_ifs at h with h1 h2 h3 h4
      simp only [Except.ok.injEq] at h
      subst h
      have := h0 b hsb
      refine ⟨?_, b, rfl, h4⟩
      intro b' hb'
      simp only [Option.some.injEq] at hb'
      omega
  · intro h
    match status with
    | 0 => exact (Except.ok.injEq _ _ ▸ h) ▸ h0
    | 1 => exact (Except.ok.injEq _ _ ▸ h) ▸ h0
    | n + 3 => exact (Except.ok.injEq _ _ ▸ h) ▸ h0
    | 2 =>
      simp only [on_donations_withdrawn, get_balance, assertE_bind] at h
      by_cases h1 : is_initialized s = true
      · rw [if_pos h1] at h
        cases hsb : s.balance with
        | none => rw [hsb, storageGetSome_none_bind] at h; exact Except.noConfusion h
        | some b =>
          rw [hsb, storageGetSome_some_bind] at h
          simp only [Except.ok.injEq] at h
          subst h
          exact hadd b hsb
      · rw [if_neg h1, except_error_bind] at h
        exact Except.noConfusion h

end Donate

namespace Donate

theorem withdraw_donations_cases (cfg : Config) (ctx : Context) (amount : Nat)
    (s : Storage) :
    (∃ b : Int, s.balance = some b ∧ is_initialized s = true ∧
      is_owner ctx s = true ∧ cfg.MIN_WITHDRAWAL_AMOUNT ≤ amount ∧
      (amount : Int) ≤ b ∧
      withdraw_donations cfg ctx amount s
        = .ok { s with balance := some (b - (amount : Int)) }) ∨
    (∃ e, withdraw_donations cfg ctx amount s = .error e) := by
  by_cases h1 : is_initialized s = true
  · by_cases h2 : is_owner ctx s = true
    · by_cases h3 : cfg.MIN_WITHDRAWAL_AMOUNT ≤ amount
      · cases hsb : s.balance with
        | none =>
          refine Or.inr ⟨"Storage key not found", ?_⟩
          simp [withdraw_donations, assertE_bind, h1, h2, h3, hsb,
            storageGetSome_none_bind]
        | some b =>
          by_cases h4 : (amount : Int) ≤ b
          · refine Or.inl ⟨b, rfl, h1, h2, h3, h4, ?_⟩
            simp [withdraw_donations, assertE_bind, h1, h2, h3, hsb,
              storageGetSome_some_bind, h4]
          · refine Or.inr ⟨"Attempting to withdraw more than donation balance.", ?_⟩
            simp [withdraw_donations, assertE_bind, h1, h2, h3, hsb,
              storageGetSome_some_bind, h4]
      · exact Or.inr ⟨"Attempting to withdraw less than minimum amount (1 NEAR)",
          by simp [withdraw_donations, assertE_bind, h1, h2, h3]⟩
    · exact Or.inr
        ⟨"Must be called by owner. e.g. myorg.near if your donation account is myorg.donate.near",
          by simp [withdraw_donations, assertE_bind, h1, h2]⟩
  · exact Or.inr ⟨"Contract must be initialized first.",
      by simp [withdraw_donations, assertE_bind, h1]⟩

theorem on_donation_sent_success (ctx : Context) (amount : Nat) {s s1 : Storage}
    (h : on_donation_sent ctx 1 amount s = .ok s1) :
    ∃ b : Int, s.balance = some b ∧
      s1 = { s with
             balance := some (b + (amount : Int)),
             donations := setAdd s.donations
               ⟨ctx.predecessor, amount, ctx.blockTimestamp⟩ } := by
  simp only [on_donation_sent, get_balance, assertE_bind] at h
  by_cases h1 : is_initialized s = true
  · rw [if_pos h1] at h
    cases hsb : s.balance with
    | none => rw [hsb, storageGetSome_none_bind] at h; exact Except.noConfusion h
    | some b =>
      rw [hsb, storageGetSome_some_bind] at h
      simp only [Except.ok.injEq] at h
      exact ⟨b, rfl, h.symm⟩
  · rw [if_neg h1, except_error_bind] at h
    exact Except.noConfusion h

/-- C7: `withdraw_donations(amount)` succeeds only when the contract is
initialized, the caller is the owner, the amount is at least the minimum
withdrawal and the amount does not exceed the current balance — in which case
its only effect is the debit — and it fails (the invocation aborts with no
state change) whenever any of the four preconditions is violated. -/
theorem withdraw_preconditions (cfg : Config) (ctx : Context) (amount : Nat)
    (s : Storage) :
    (∀ s1, withdraw_donations cfg ctx amount s = .ok s1 →
      is_initialized s = true ∧ is_owner ctx s = true ∧
      cfg.MIN_WITHDRAWAL_AMOUNT ≤ amount ∧
      ∃ b : Int, s.balance = some b ∧ (amount : Int) ≤ b ∧
        s1 = { s with balance := some (b - (amount : Int)) }) ∧
    ((is_initialized s = false ∨ is_owner ctx s = false ∨
      amount < cfg.MIN_WITHDRAWAL_AMOUNT ∨
      (∃ b : Int, s.balance = some b ∧ b < (amount : Int))) →
      ∃ e, withdraw_donations cfg ctx amount s = .error e) := by
  rcases withdraw_donations_cases cfg ctx amount s with
    ⟨b, hsb, h1, h2, h3, h4, hok⟩ | ⟨e, herr⟩
  · constructor
    · intro s1 h
      rw [hok] at h
      simp only [Except.ok.injEq] at h
      exact ⟨h1, h2, h3, b, hsb, h4, h.symm⟩
    · intro hfail
      rcases hfail with hf | hf | hf | ⟨b', hb', hf⟩
      · rw [h1] at hf; exact absurd hf (by simp)
      · rw [h2] at hf; exact absurd hf (by simp)
      · omega
      · rw [hsb] at hb'
        simp only [Option.some.injEq] at hb'
        subst hb'
        omega
  · constructor
    · intro s1 h
      rw [herr] at h
      exact Except.noConfusion h
    · intro _
      exact ⟨e, herr⟩

/-- C8: initialization is exactly-once and all-or-nothing: on an
uninitialized state with sufficient attached deposit and a valid owner id,
`init` persists the owner and a zero balance (and `get_balance` then returns
zero), after which every further `init` call by any caller fails; `init`
also fails — with the invocation aborted and no state change — when the
deposit is insufficient or the owner id is malformed. -/
theorem init_exactly_once (cfg : Config) (ctx : Context) (owner : AccountId)
    (s : Storage) :
    (is_initialized s = false →
      cfg.MIN_ACCOUNT_BALANCE ≤ ctx.attachedDeposit →
      cfg.isValidAccountId owner = true →
      init cfg ctx owner s
        = .ok { s with owner := some owner, balance := some 0 } ∧
      get_balance { s with owner := some owner, balance := some 0 } = .ok 0 ∧
      ∀ (ctx' : Context) (owner' : AccountId), ∃ e,
        init cfg ctx' owner' { s with owner := some owner, balance := some 0 }
          = .error e) ∧
    (is_initialized s = true → ∃ e, init cfg ctx owner s = .error e) ∧
    (ctx.attachedDeposit < cfg.MIN_ACCOUNT_BALANCE →
      ∃ e, init cfg ctx owner s = .error e) ∧
    (cfg.isValidAccountId owner = false →
      ∃ e, init cfg ctx owner s = .error e) := by
  refine ⟨?_, ?_, ?_, ?_⟩
  · intro h1 h2 h3
    refine ⟨by simp [init, assertE_bind, h1, h2, h3], rfl, ?_⟩
    intro ctx' owner'
    exact ⟨"Contract is already initialized.",
      by simp [init, assertE_bind, is_initialized]⟩
  · intro h1
    exact ⟨"Contract is already initialized.", by simp [init, assertE_bind, h1]⟩
  · intro h
    by_cases h1 : is_initialized s = true
    · exact ⟨"Contract is already initialized.", by simp [init, assertE_bind, h1]⟩
    · exact ⟨"Minimum account balance must be attached to initialize this contract (3 NEAR)",
        by simp [init, assertE_bind, h1, Nat.not_le.mpr h]⟩
  · intro h
    by_cases h1 : is_initialized s = true
    · exact ⟨"Contract is already initialized.", by simp [init, assertE_bind, h1]⟩
    · by_cases h2 : cfg.MIN_ACCOUNT_BALANCE ≤ ctx.attachedDeposit
      · exact ⟨"Owner account must have valid NEAR account name",
          by simp [init, assertE_bind, h1, h2, h]⟩
      · exact ⟨"Minimum account balance must be attached to initialize this contract (3 NEAR)",
          by simp [init, assertE_bind, h1, h2]⟩

/-- C9: the donation log has set semantics keyed by full value equality:
when two successful fee-forward confirmations carry an identical donor,
amount and timestamp, the second `add` is idempotent — the stored collection
holds a single record for them, not two. -/
theorem donations_set_collapse (ctx : Context) (amount : Nat)
    (s s1 s2 : Storage)
    (hd : (⟨ctx.predecessor, amount, ctx.blockTimestamp⟩ : Donation)
      ∉ s.donations)
    (h1 : on_donation_sent ctx 1 amount s = .ok s1)
    (h2 : on_donation_sent ctx 1 amount s1 = .ok s2) :
    s2.donations = s1.donations ∧
    s1.donations.count ⟨ctx.predecessor, amount, ctx.blockTimestamp⟩ = 1 ∧
    s2.donations.count ⟨ctx.predecessor, amount, ctx.blockTimestamp⟩ = 1 := by
  obtain ⟨b, hsb, hs1⟩ := on_donation_sent_success ctx amount h1
  obtain ⟨b', hsb', hs2⟩ := on_donation_sent_success ctx amount h2
  have hs1d : s1.donations
      = s.donations ++ [⟨ctx.predecessor, amount, ctx.blockTimestamp⟩] := by
    rw [hs1]
    exact setAdd_of_not_mem hd
  have hmem : (⟨ctx.predecessor, amount, ctx.blockTimestamp⟩ : Donation)
      ∈ s1.donations := by
    rw [hs1d]; simp
  have hs2d : s2.donations = s1.donations := by
    rw [hs2]
    exact setAdd_of_mem hmem
  have h0 : s.donations.count
      (⟨ctx.predecessor, amount, ctx.blockTimestamp⟩ : Donation) = 0 :=
    List.count_eq_zero.mpr hd
  refine ⟨hs2d, ?_, ?_⟩
  · rw [hs1d, List.count_append, h0]
    simp
  · rw [hs2d, hs1d, List.count_append, h0]
    simp

/-- C10: neither callback authenticates its caller: for every invocation
context — any predecessor account, not only the call scheduler —
`on_donations_withdrawn` with status Failure (2) on an initialized state
succeeds and increases the balance by `amount`, and `on_donation_sent` with
status Success (1) credits the balance and records the invoking context's
predecessor as the donor. -/
theorem callbacks_no_auth (ctx : Context) (amount : Nat) (s : Storage)
    (b : Int) (ho : s.owner.isSome = true) (hb : s.balance = some b) :
    on_donations_withdrawn ctx 2 amount s
      = .ok { s with balance := some (b + (amount : Int)) } ∧
    on_donation_sent ctx 1 amount s
      = .ok { s with
              balance := some (b + (amount : Int)),
              donations := setAdd s.donations
                ⟨ctx.predecessor, amount, ctx.blockTimestamp⟩ } := by
  have hgb : get_balance s = .ok b := get_balance_eq ho hb
  constructor
  · have hunfold : on_donations_withdrawn ctx 2 amount s
        = (get_balance s >>= fun bal =>
            .ok { s with balance := some (bal + (amount : Int)) }) := rfl
    rw [hunfold, hgb]
    exact rfl
  · have hunfold : on_donation_sent ctx 1 amount s
        = (get_balance s >>= fun bal =>
            .ok { s with
                  balance := some (bal + (amount : Int)),
                  donations := setAdd s.donations
                    ⟨ctx.predecessor, amount, ctx.blockTimestamp⟩ }) := rfl
    rw [hunfold, hgb]
    exact rfl

end Donate

namespace Donate

/-- Witness for C2: owner withdraws 20 from a balance of 50, the debit leaves
30, the Failure callback restores 50 and the Success callback changes
nothing. -/
theorem withdraw_then_callback_balance_witness :
    (⟨some "owner.near", some 30, []⟩ : Storage)
      = { sW with balance := some ((50 : Int) - ((20 : Nat) : Int)) } ∧
    on_donations_withdrawn ctxOwnerW 2 20 ⟨some "owner.near", some 30, []⟩
      = .ok { sW with balance := some 50 } ∧
    on_donations_withdrawn ctxOwnerW 1 20 ⟨some "owner.near", some 30, []⟩
      = .ok ⟨some "owner.near", some 30, []⟩ :=
  withdraw_then_callback_balance cfgW ctxOwnerW ctxOwnerW 20 sW
    ⟨some "owner.near", some 30, []⟩ 50 rfl rfl

/-- Witness for C3: a Failure fee-forward callback and a Pending withdrawal
callback both leave the concrete storage unchanged. -/
theorem callback_nonmutating_frame_witness :
    on_donation_sent ctxOwnerW 2 5 sW = .ok sW ∧
    on_donations_withdrawn ctxOwnerW 0 5 sW = .ok sW :=
  ⟨(callback_nonmutating_frame ctxOwnerW 2 5 sW).1 (by decide),
   (callback_nonmutating_frame ctxOwnerW 0 5 sW).2 (by decide)⟩

/-- Witness for C4: a deposit of 100 with fee divisor 10 splits into fee 10
and net 90. -/
theorem send_donation_fee_split_witness :
    ∃ p, send_donation cfgW ctxDonorW sW = .ok (sW, p) ∧
      p.feeAmount = ctxDonorW.attachedDeposit / cfgW.PLATFORM_FEE_DIVISOR ∧
      p.callbackAmount = ctxDonorW.attachedDeposit - p.feeAmount ∧
      p.feeAmount + p.callbackAmount = ctxDonorW.attachedDeposit ∧
      p.feeAmount ≤ ctxDonorW.attachedDeposit / cfgW.PLATFORM_FEE_DIVISOR :=
  send_donation_fee_split cfgW ctxDonorW sW rfl (by decide)

/-- Witness for C5: initializing an empty storage yields a state whose
balance slot is non-negative. -/
theorem balance_nonneg_preserved_witness :
    balance_nonneg ⟨some "alice.near", some 0, []⟩ :=
  (balance_nonneg_preserved cfgW ⟨"deployer.near", 5, 0, "donate.donate-as.near"⟩
      "alice.near" 0 0 ⟨none, none, []⟩ ⟨some "alice.near", some 0, []⟩
      ⟨"", 0, "", 0⟩
      (fun _ hb => Option.noConfusion hb)).1 rfl

/-- Witness for C6: a concrete successful `send_donation` returns the input
storage unchanged, and the flow with a Failure status also changes nothing. -/
theorem send_donation_no_state_change_witness :
    sW = sW ∧ donation_flow cfgW ctxDonorW 9 2 sW = .ok sW :=
  ⟨(send_donation_no_state_change cfgW ctxDonorW 9 sW sW
      ⟨get_factory ctxDonorW, 10, "donate.donate-as.near", 90⟩ rfl).1,
   (send_donation_no_state_change cfgW ctxDonorW 9 sW sW
      ⟨get_factory ctxDonorW, 10, "donate.donate-as.near", 90⟩ rfl).2 2 (by decide)⟩

/-- Witness for C7: the successful withdrawal of 20 from balance 50 passes
all four preconditions, and a withdrawal of 0 (below the minimum 1) fails. -/
theorem withdraw_preconditions_witness :
    (is_initialized sW = true ∧ is_owner ctxOwnerW sW = true ∧
      cfgW.MIN_WITHDRAWAL_AMOUNT ≤ 20 ∧
      ∃ b : Int, sW.balance = some b ∧ ((20 : Nat) : Int) ≤ b ∧
        (⟨some "owner.near", some 30, []⟩ : Storage)
          = { sW with balance := some (b - ((20 : Nat) : Int)) }) ∧
    ∃ e, withdraw_donations cfgW ctxOwnerW 0 sW = .error e :=
  ⟨(withdraw_preconditions cfgW ctxOwnerW 20 sW).1
      ⟨some "owner.near", some 30, []⟩ rfl,
   (withdraw_preconditions cfgW ctxOwnerW 0 sW).2
      (Or.inr (Or.inr (Or.inl (by decide))))⟩

/-- Witness for C8: `init` on an empty storage persists owner `bob.near` and
balance zero, `get_balance` then reads zero, a second `init` fails, and
`init` on an already-initialized storage fails. -/
theorem init_exactly_once_witness :
    init cfgW ⟨"deployer.near", 5, 0, "donate.donate-as.near"⟩ "bob.near"
        ⟨none, none, []⟩ = .ok ⟨some "bob.near", some 0, []⟩ ∧
    get_balance ⟨some "bob.near", some 0, []⟩ = .ok 0 ∧
    (∃ e, init cfgW ⟨"deployer.near", 5, 0, "donate.donate-as.near"⟩ "eve.near"
        ⟨some "bob.near", some 0, []⟩ = .error e) ∧
    (∃ e, init cfgW ⟨"deployer.near", 5, 0, "donate.donate-as.near"⟩ "bob.near"
        sW = .error e) :=
  ⟨((init_exactly_once cfgW ⟨"deployer.near", 5, 0, "donate.donate-as.near"⟩
      "bob.near" ⟨none, none, []⟩).1 rfl (by decide) (by decide)).1,
   ((init_exactly_once cfgW ⟨"deployer.near", 5, 0, "donate.donate-as.near"⟩
      "bob.near" ⟨none, none, []⟩).1 rfl (by decide) (by decide)).2.1,
   ((init_exactly_once cfgW ⟨"deployer.near", 5, 0, "donate.donate-as.near"⟩
      "bob.near" ⟨none, none, []⟩).1 rfl (by decide) (by decide)).2.2
      ⟨"deployer.near", 5, 0, "donate.donate-as.near"⟩ "eve.near",
   (init_exactly_once cfgW ⟨"deployer.near", 5, 0, "donate.donate-as.near"⟩
      "bob.near" sW).2.1 rfl⟩

/-- Witness for C9: two identical successful callbacks (donor `bob.near`,
amount 7, timestamp 11) leave a single stored record. -/
theorem donations_set_collapse_witness :
    ([⟨"bob.near", 7, 11⟩] : List Donation)
      = ([⟨"bob.near", 7, 11⟩] : List Donation) ∧
    ([⟨"bob.near", 7, 11⟩] : List Donation).count ⟨"bob.near", 7, 11⟩ = 1 ∧
    ([⟨"bob.near", 7, 11⟩] : List Donation).count ⟨"bob.near", 7, 11⟩ = 1 :=
  donations_set_collapse ⟨"bob.near", 0, 11, "donate.donate-as.near"⟩ 7 sW
    ⟨some "owner.near", some 57, [⟨"bob.near", 7, 11⟩]⟩
    ⟨some "owner.near", some 64, [⟨"bob.near", 7, 11⟩]⟩
    (by decide) rfl rfl

/-- Witness for C10: an arbitrary account `mallory.near` invokes both
callbacks on an initialized storage: the withdrawal-failure callback credits
5, and the donation-success callback credits 5 and records `mallory.near` as
the donor. -/
theorem callbacks_no_auth_witness :
    on_donations_withdrawn ⟨"mallory.near", 0, 13, "donate.donate-as.near"⟩ 2 5 sW
      = .ok ⟨some "owner.near", some 55, []⟩ ∧
    on_donation_sent ⟨"mallory.near", 0, 13, "donate.donate-as.near"⟩ 1 5 sW
      = .ok ⟨some "owner.near", some 55, [⟨"mallory.near", 5, 13⟩]⟩ :=
  callbacks_no_auth ⟨"mallory.near", 0, 13, "donate.donate-as.near"⟩ 5 sW 50
    rfl rfl

end Donate
